import Mathlib

/-!
# Verification of the payment reconciliation and caching layer

Shallow embedding of the core of the `navid-dashboard` repository: the
Google-Sheets record-store adapter (`googleSheetsHelper.ts`), the in-process
reconciliation cache (`cache-utils`), the due-date derivation
(`calculateDueDate` in the sheets helper and `calculateExpectedPaymentDate`
in `payment-utils.ts`), and the batch status-update route
(`app/api/payments/update-status/route.ts`).

Conventions of the embedding:
* spreadsheet rows are `List String`; a missing trailing cell is read as `""`
  (the source pads short rows with `""` before mapping, and JS `undefined`
  compares unequal to every relevant non-empty string exactly as `""` does);
* timestamps are integers in milliseconds (`Int`), as produced by
  `Date.getTime()`;
* store writes performed by an operation are reified as an explicit list of
  `SheetWrite` values, in the order the source issues them;
* fallible operations return `Except String`, the error string mirroring the
  `Error` message thrown by the source.
-/

namespace NavidDashboard

/-! ## Reconciliation cache (`cache-utils`, `getCachedPayments` /
`getCachedGoldPayments`)

The two cached collections use the same logic over their own module-level
entry; it is embedded once as `cacheRead`.  The store fetch that the source
performs with `await getPayments()` is passed in as an `Except`-valued
argument (the outcome the adapter would produce at that instant), making the
read a pure function of the prior cache state, the clock, and that outcome. -/

/-- Structure `CacheItem` of `cache-utils`: cached data plus the two timestamps. -/
structure CacheEntry (α : Type) where
  data : List α
  lastFetched : Int
  lastAccessed : Int
deriving Repr, DecidableEq

/-- Constant `CACHE_REFRESH_INTERVAL = 15 * 60 * 1000` (15 minutes, ms). -/
def CACHE_REFRESH_INTERVAL : Int := 15 * 60 * 1000

/-- Constant `CACHE_INVALIDATION_TIMEOUT = 30 * 60 * 1000` (30 minutes, ms). -/
def CACHE_INVALIDATION_TIMEOUT : Int := 30 * 60 * 1000

/-- Result of one cached read: the value returned to the caller, the cache
state left behind, and whether the adapter was invoked (`fetched`). -/
structure CacheReadResult (α : Type) where
  result : Except String (List α)
  state : Option (CacheEntry α)
  fetched : Bool
deriving Repr

/-- One call to `getCachedPayments` / `getCachedGoldPayments`.

Mirrors the source: if an entry exists its `lastAccessed` is bumped to `now`
first; then `cacheAge = now - lastFetched` and
`inactiveTime = now - lastAccessed` (computed on the already-bumped entry, so
it is always `0`); the entry is served iff
`cacheAge < CACHE_REFRESH_INTERVAL && inactiveTime < CACHE_INVALIDATION_TIMEOUT`.
Otherwise the adapter is consulted; on success the entry is replaced, on
failure the surviving entry (if any) is served as a stale fallback and the
error is rethrown only when no entry exists. -/
def cacheRead {α : Type} (cache : Option (CacheEntry α)) (now : Int)
    (fetch : Except String (List α)) : CacheReadResult α :=
  match cache with
  | some entry =>
    let bumped : CacheEntry α := { entry with lastAccessed := now }
    let cacheAge : Int := now - bumped.lastFetched
    let inactiveTime : Int := now - bumped.lastAccessed
    if cacheAge < CACHE_REFRESH_INTERVAL ∧ inactiveTime < CACHE_INVALIDATION_TIMEOUT then
      ⟨.ok bumped.data, some bumped, false⟩
    else
      match fetch with
      | .ok fresh => ⟨.ok fresh, some ⟨fresh, now, now⟩, true⟩
      | .error _ => ⟨.ok bumped.data, some bumped, true⟩
  | none =>
    match fetch with
    | .ok fresh => ⟨.ok fresh, some ⟨fresh, now, now⟩, true⟩
    | .error e => ⟨.error e, none, true⟩

/-- Functions `invalidatePaymentsCache` / `invalidateGoldPaymentsCache`: drop the entry. -/
def cacheInvalidate {α : Type} (_cache : Option (CacheEntry α)) :
    Option (CacheEntry α) := none

/-- Every cache entry ever stored satisfies `lastFetched ≤ lastAccessed`:
fresh entries set both to `now`, and reads only move `lastAccessed` forward. -/
def CacheEntryInv {α : Type} (entry : CacheEntry α) : Prop :=
  entry.lastFetched ≤ entry.lastAccessed

/-! ## Record store writes

A write issued by an adapter operation: the column (letter or letter range),
the 1-indexed sheet row, and the cell values written. -/

structure SheetWrite where
  col : String
  rowIndex : Nat
  values : List String
deriving Repr, DecidableEq

/-! ## Gold payments (`googleSheetsHelper.ts`, current version:
`getGoldPayments` over `Gold Payment!A:J` and `updateGoldPaymentStatus`) -/

/-- The JS regex `gold-([^-]+)-` (written between slashes in the source)
applied at one position: the literal
`gold-`, then a maximal nonempty run of non-hyphen characters (greedy `[^-]+`
can only succeed with the maximal run, since shrinking it leaves a non-hyphen
character where the final `-` must match), then a hyphen. -/
def goldMatchAt (cs : List Char) : Option String :=
  if ('g' :: 'o' :: 'l' :: 'd' :: '-' :: []).isPrefixOf cs then
    let rest := cs.drop 5
    let run := rest.takeWhile (fun c => c ≠ '-')
    if run ≠ [] ∧ rest.drop run.length ≠ [] then some (String.mk run) else none
  else none

/-- Evaluation of `paymentId.match` against the regex `gold-([^-]+)-`: the capture group of the first
(leftmost) successful match, or `none` when the regex does not match. -/
def goldIdCaptureAux : List Char → Option String
  | [] => none
  | c :: cs =>
    match goldMatchAt (c :: cs) with
    | some captured => some captured
    | none => goldIdCaptureAux cs

/-- The Discord ID extracted from a gold payment ID by
`updateGoldPaymentStatus`. -/
def goldIdCapture (paymentId : String) : Option String :=
  goldIdCaptureAux paymentId.data

/-- JS `String.prototype.trim` on the character list (strip leading and
trailing whitespace). -/
def jsTrim (s : String) : String :=
  String.mk
    (((s.data.dropWhile Char.isWhitespace).reverse.dropWhile
        Char.isWhitespace).reverse)

/-- JS `String.prototype.toLowerCase` (ASCII case mapping). -/
def jsToLower (s : String) : String :=
  String.mk (s.data.map Char.toLower)

/-- Status normalization of `getGoldPayments` (current version, column index
8): `let status = row[8] || "Pending"`, then the trimmed lower-cased value is
matched against the recognized spellings; an unrecognized non-blank value is
left as it stands in the cell. -/
def mapGoldStatus (cell : String) : String :=
  let status := if cell = "" then "Pending" else cell
  let t := jsToLower (jsTrim status)
  if t = "yes" ∨ t = "true" ∨ t = "completed" ∨ t = "paid" then "Paid"
  else if t = "cancelled" ∨ t = "cancel" then "Cancelled"
  else if jsTrim status = "" ∨ t = "pending" then "Pending"
  else status

/-- A gold payment record as produced by `getGoldPayments`. -/
structure GoldPayment where
  id : String
  date : String
  discordId : String
  nameRealm : String
  amount : String
  note : String
  category : String
  admin : String
  paymentId : String
  status : String
  whoPaid : String
  paidBy : String
deriving Repr, DecidableEq

/-- Row-to-record mapping of `getGoldPayments` (current version).  `nowIso`
and `nowMs` stand for `new Date().toISOString()` and `new Date().getTime()`
at capture time; `index` is the row's position among the data rows.  Cells
missing from a short row are `""` (the source pads to 10 cells). -/
def goldPaymentOfRow (nowIso : String) (nowMs : Nat) (index : Nat)
    (row : List String) : GoldPayment :=
  let cell := fun (k : Nat) => row.getD k ""
  { id := if cell 7 ≠ "" then cell 7
      else "gold-" ++ cell 1 ++ "-" ++ toString index ++ "-" ++ toString nowMs
    date := if cell 0 ≠ "" then cell 0 else nowIso
    discordId := cell 1
    nameRealm := cell 2
    amount := cell 3
    note := cell 4
    category := cell 5
    admin := cell 6
    paymentId := cell 7
    status := mapGoldStatus (cell 8)
    whoPaid := cell 9
    paidBy := cell 9 }

/-- Mapping of `getGoldPayments` over the data rows (header row, if any, already
stripped by the `hasHeaderRow`/`slice(1)` logic of the source). -/
def getGoldPayments (nowIso : String) (nowMs : Nat)
    (dataRows : List (List String)) : List GoldPayment :=
  dataRows.enum.map fun p => goldPaymentOfRow nowIso nowMs p.1 p.2

/-- Status-to-cell mapping of `updateGoldPaymentStatus`: `Paid ↦ yes`,
`Cancelled ↦ cancelled`, anything else `pending`. -/
def goldStatusValue (status : String) : String :=
  if status = "Paid" then "yes"
  else if status = "Cancelled" then "cancelled"
  else "pending"

/-- Header sniffing of `updateGoldPaymentStatus`: skip row 0 iff its first
cell is the header label `Date`. -/
def goldStartRow (rows : List (List String)) : Nat :=
  if (rows.headD []).headD "" = "Date" then 1 else 0

/-- Data-row indices of `Gold Payment!A:J` whose Discord ID column (index 1)
equals `discordId`, starting from `startRow` (1 when the first row is the
header). -/
def goldMatchingIndices (rows : List (List String)) (startRow : Nat)
    (discordId : String) : List Nat :=
  (List.range rows.length).filter fun i =>
    startRow ≤ i ∧ (rows.getD i []).getD 1 "" = discordId

/-- Model of `updateGoldPaymentStatus(paymentId, update)` (current version).  `rows`
is the content of `Gold Payment!A:J`; the result is the list of store writes
issued (one `F`-column write per matching row, in row order) together with
the returned message or thrown error.  The source's `update.paidBy` and
`update.columnToUpdate` are accepted but never used by this version, so they
are omitted. -/
def updateGoldPaymentStatus (paymentId : String) (status : String)
    (rows : List (List String)) : List SheetWrite × Except String String :=
  match goldIdCapture paymentId with
  | none => ([], .error ("Invalid gold payment ID format: " ++ paymentId))
  | some discordId =>
    if rows.isEmpty then ([], .error "No gold payments found")
    else
      let matching := goldMatchingIndices rows (goldStartRow rows) discordId
      if matching.isEmpty then
        ([], .error ("No gold payments found for Discord ID " ++ discordId))
      else
        let statusValue := goldStatusValue status
        (matching.map fun i => ⟨"F", i + 1, [statusValue]⟩,
         .ok ("Updated status for " ++ toString matching.length ++
              " gold payment(s) for Discord ID " ++ discordId))

/-! ## Payments (`googleSheetsHelper.ts`, current version: `getPayments`
over `Payment!A:Q` and `updatePayment`)

Column layout (0-indexed): 0 id, 1 amount, 2 price, 3 finalAmount/totalRial,
4 user, 5 submitDate/timestamp, 6 discordId, 7 cardNumber, 8 iban,
9 nameOnCard, 10 phoneNumber, 11 paymentDuration, 12 game, 13 note,
14 status, 15 whoPaidCancelled, 16 dueDate. -/

/-- JS `x || fallback` for an optional string field: the field's value when
present and non-empty (truthy), the fallback otherwise. -/
def jsOr (field : Option String) (fallback : String) : String :=
  match field with
  | some v => if v ≠ "" then v else fallback
  | none => fallback

/-- A payment record as produced by `getPayments` (current version). -/
structure Payment where
  id : String
  amount : String
  price : String
  finalAmount : String
  user : String
  submitDate : String
  timestamp : String
  discordId : String
  cardNumber : String
  iban : String
  nameOnCard : String
  phoneNumber : String
  paymentDuration : String
  game : String
  note : String
  status : String
  whoPaidCancelled : String
  paid : Bool
  dueDate : String
deriving Repr, DecidableEq

/-- Row-to-record mapping of `getPayments` (current version); short rows are
padded with `""` to 17 cells by the source. -/
def paymentOfRow (row : List String) : Payment :=
  let cell := fun (k : Nat) => row.getD k ""
  let status := if cell 14 = "" then "Pending" else cell 14
  { id := cell 0
    amount := cell 1
    price := cell 2
    finalAmount := cell 3
    user := cell 4
    submitDate := cell 5
    timestamp := cell 5
    discordId := cell 6
    cardNumber := cell 7
    iban := cell 8
    nameOnCard := cell 9
    phoneNumber := cell 10
    paymentDuration := cell 11
    game := cell 12
    note := cell 13
    status := status
    whoPaidCancelled := cell 15
    paid := status = "Paid"
    dueDate := cell 16 }

/-- The partial-update object accepted by `updatePayment`: `some v` models a
key present with value `v`, `none` a key absent from the object. -/
structure PaymentPatch where
  amount : Option String := none
  price : Option String := none
  totalRial : Option String := none
  user : Option String := none
  discordId : Option String := none
  cardNumber : Option String := none
  iban : Option String := none
  nameOnCard : Option String := none
  phoneNumber : Option String := none
  paymentDuration : Option String := none
  game : Option String := none
  note : Option String := none
  status : Option String := none
  timestamp : Option String := none
  whoPaidCancelled : Option String := none
  columnToUpdate : Option String := none
deriving Repr, DecidableEq

/-- Count `Object.keys(payment).length`: how many keys the partial carries. -/
def PaymentPatch.presentCount (p : PaymentPatch) : Nat :=
  [p.amount.isSome, p.price.isSome, p.totalRial.isSome, p.user.isSome,
   p.discordId.isSome, p.cardNumber.isSome, p.iban.isSome, p.nameOnCard.isSome,
   p.phoneNumber.isSome, p.paymentDuration.isSome, p.game.isSome, p.note.isSome,
   p.status.isSome, p.timestamp.isSome, p.whoPaidCancelled.isSome,
   p.columnToUpdate.isSome].count true

/-- The guard of the status-only fast path in `updatePayment`:
`payment.status && Object.keys(payment).length <= 3 &&
(keys include status, columnToUpdate, or whoPaidCancelled)`. -/
def PaymentPatch.statusOnly (p : PaymentPatch) : Bool :=
  (p.status.getD "" ≠ "") && (p.presentCount ≤ 3) &&
    (p.status.isSome || p.columnToUpdate.isSome || p.whoPaidCancelled.isSome)

/-- The merged 17-cell row written by `updatePayment`'s full-update path:
`amount`, `price`, `totalRial` and `note` merge with an
`!== undefined` check, every other field with JS `||`; the timestamp cell and
the due-date cell always come from the stored row. -/
def mergedRow (paymentId : String) (cur : List String) (p : PaymentPatch) :
    List String :=
  let cell := fun (k : Nat) => cur.getD k ""
  [paymentId,
   p.amount.getD (cell 1),
   p.price.getD (cell 2),
   p.totalRial.getD (cell 3),
   jsOr p.user (cell 4),
   cell 5,
   jsOr p.discordId (cell 6),
   jsOr p.cardNumber (cell 7),
   jsOr p.iban (cell 8),
   jsOr p.nameOnCard (cell 9),
   jsOr p.phoneNumber (cell 10),
   jsOr p.paymentDuration (cell 11),
   jsOr p.game (cell 12),
   p.note.getD (cell 13),
   jsOr p.status (jsOr (some (cell 14)) "Pending"),
   jsOr p.whoPaidCancelled (jsOr (some (cell 15)) ""),
   cell 16]

/-- Linear scan of the ID column: 0-indexed position of the first row whose
cell 0 equals `paymentId` (the source scans every row, header included). -/
def findPaymentRow (rows : List (List String)) (paymentId : String) :
    Option Nat :=
  (List.range rows.length).find? fun i => (rows.getD i []).headD "" = paymentId

/-- Model of `updatePayment(paymentId, payment)` (current version): the store writes
issued and success/failure.  On the status-only fast path a single
`O`-column (status) write is issued; on the full path the whole merged
`A:Q` row is written, followed by an extra single-column write when
`columnToUpdate` requests column `P` while a status is present. -/
def updatePayment (rows : List (List String)) (paymentId : String)
    (p : PaymentPatch) : List SheetWrite × Except String Unit :=
  match findPaymentRow rows paymentId with
  | none => ([], .error ("Payment with ID " ++ paymentId ++ " not found"))
  | some i =>
    let cur := rows.getD i []
    let rowIndex := i + 1
    if p.statusOnly then
      ([⟨"O", rowIndex, [p.status.getD ""]⟩], .ok ())
    else
      let merged := mergedRow paymentId cur p
      let extraWrites :=
        if p.columnToUpdate.getD "" ≠ "" then
          let columnLetter := p.columnToUpdate.getD ""
          let valueToUpdate :=
            if columnLetter = "P" ∧ p.status.getD "" ≠ "" then
              p.whoPaidCancelled.getD ""
            else ""
          if valueToUpdate ≠ "" then [⟨columnLetter, rowIndex, [valueToUpdate]⟩]
          else []
        else []
      (⟨"A:Q", rowIndex, merged⟩ :: extraWrites, .ok ())

/-! ## Due-date derivation

Two implementations exist in the source: `calculateExpectedPaymentDate`
(`payment-utils.ts`), a switch over the enumerated duration options, and
`calculateDueDate` (`googleSheetsHelper.ts`), a free-text scanner applied
when payments are read back.  Calendar arithmetic is abstracted: a result is
either a concrete millisecond instant (days are the fixed 86 400 000 ms that
`date-fns/addDays` adds outside DST transitions) or, for `calculateDueDate`,
a `DueDelta` naming the unit and quantity the source passes to
`setDate`/`setMonth`/`setFullYear`. -/

/-- Leading maximal digit run of a character list, `none` when the first
character is not a digit or the list is empty. -/
def leadingDigits (cs : List Char) : Option (List Char) :=
  let run := cs.takeWhile Char.isDigit
  if run = [] then none else some run

/-- Numeric value of a digit run. -/
def digitsToNat (cs : List Char) : Nat :=
  cs.foldl (fun acc c => acc * 10 + (c.toNat - '0'.toNat)) 0

/-- The JS regex `\d+` matched anywhere: first maximal digit run of `s`,
parsed by `parseInt(_, 10)`. -/
def firstInt (s : String) : Option Nat :=
  (firstIntAux s.data).map digitsToNat
where
  firstIntAux : List Char → Option (List Char)
    | [] => none
    | c :: cs =>
      if c.isDigit then some (c :: cs.takeWhile Char.isDigit)
      else firstIntAux cs

/-- JS `parseInt(s)`: skip leading whitespace, optional sign, leading digit
run; `NaN` (here `none`) when no digits follow. -/
def parseIntJS (s : String) : Option Int :=
  match s.data.dropWhile Char.isWhitespace with
  | '-' :: rest => (leadingDigits rest).map fun run => -(digitsToNat run : Int)
  | '+' :: rest => (leadingDigits rest).map fun run => (digitsToNat run : Int)
  | cs => (leadingDigits cs).map fun run => (digitsToNat run : Int)

/-- JS `String.prototype.includes`. -/
def containsSub (s sub : String) : Bool :=
  s.data.tails.any fun t => sub.data.isPrefixOf t

/-- The `string | number` duration argument of `calculateDueDate`. -/
inductive DurationInput
  | str (s : String)
  | num (n : Int)
deriving Repr, DecidableEq

/-- The calendar offset `calculateDueDate` applies to the creation date. -/
inductive DueDelta
  | days (n : Nat)
  | weeks (n : Nat)
  | months (n : Int)
  | years (n : Nat)
deriving Repr, DecidableEq

/-- Duration analysis of `calculateDueDate` (`googleSheetsHelper.ts`): a
missing or falsy duration (absent, empty string, or the number 0) and any
unrecognized free text default to one month; a numeric duration is months;
otherwise the lower-cased text is scanned for day/week/month/year keywords
(English or Persian) and combined with the first embedded integer, the day
branch defaulting to 7 and the others to 1 when no integer is present. -/
def calculateDueDateDelta : Option DurationInput → DueDelta
  | none => .months 1
  | some (.num n) => if n = 0 then .months 1 else .months n
  | some (.str d) =>
    if d = "" then .months 1
    else
      let durationLower := jsToLower d
      if containsSub durationLower "day" ∨ containsSub durationLower "روز" then
        .days ((firstInt durationLower).getD 7)
      else if containsSub durationLower "week" ∨ containsSub durationLower "هفته" then
        .weeks ((firstInt durationLower).getD 1)
      else if containsSub durationLower "month" ∨ containsSub durationLower "ماه" then
        .months (((firstInt durationLower).getD 1 : Nat) : Int)
      else if containsSub durationLower "year" ∨ containsSub durationLower "سال" then
        .years ((firstInt durationLower).getD 1)
      else .months 1

/-- Milliseconds per civil day, as added by `date-fns/addDays` outside DST
transitions. -/
def dayMs : Int := 86400000

/-- Model of `calculateExpectedPaymentDate` (`payment-utils.ts`): the enumerated
duration options map to fixed day offsets from `now`; an unrecognized string
is fed to `parseInt` and treated as a day count when numeric, otherwise the
result is `now` itself. -/
def calculateExpectedPaymentDate (now : Int) (paymentTime : String) : Int :=
  if paymentTime = "Instant" then now
  else if paymentTime = "1 day" then now + 1 * dayMs
  else if paymentTime = "1-2 days" then now + 2 * dayMs
  else if paymentTime = "2-3 days" then now + 3 * dayMs
  else if paymentTime = "3-5 days" then now + 5 * dayMs
  else if paymentTime = "5-10 days" then now + 10 * dayMs
  else
    match parseIntJS paymentTime with
    | some days => now + days * dayMs
    | none => now

/-! ## Batch status update (`app/api/payments/update-status/route.ts`)

The route (after the session and role checks) reads the cached payments,
maps every requested ID through an independent per-ID closure whose
`try/catch` turns both a missing payment and a throwing store write into a
per-ID failure record, and joins with `Promise.all`; the webhook send after
a successful store write sits in its own `try/catch` and cannot affect the
per-ID outcome, so it is not modelled.  The store write each closure
performs is passed in as a function from ID to outcome. -/

/-- The two identity fields the route's lookup consults
(`p.id === paymentId || p._id === paymentId`); `legacyId` embeds `_id`. -/
structure CachedPaymentId where
  id : String
  legacyId : String
deriving Repr, DecidableEq

/-- Per-ID result record returned by the route. -/
structure BatchItemResult where
  paymentId : String
  success : Bool
  errMsg : Option String
deriving Repr, DecidableEq

/-- The per-ID closure of the route's `paymentIds.map`. -/
def processPaymentUpdate (allPayments : List CachedPaymentId)
    (store : String → Except String Unit) (paymentId : String) :
    BatchItemResult :=
  match allPayments.find? (fun q => q.id = paymentId ∨ q.legacyId = paymentId) with
  | none => ⟨paymentId, false, some "Payment not found"⟩
  | some _ =>
    match store paymentId with
    | .ok _ => ⟨paymentId, true, none⟩
    | .error e => ⟨paymentId, false, some e⟩

/-- The batch body of the route: per-ID results plus the HTTP status code of
the response (207 when any ID failed, 200 otherwise). -/
def batchUpdateStatus (allPayments : List CachedPaymentId)
    (store : String → Except String Unit) (paymentIds : List String) :
    List BatchItemResult × Nat :=
  let updateResults := paymentIds.map (processPaymentUpdate allPayments store)
  let failures := updateResults.filter fun r => r.success = false
  (updateResults, if failures.length > 0 then 207 else 200)

/-! ## Supporting lemmas -/

theorem cacheRead_preserves_inv {α : Type} (cache : Option (CacheEntry α))
    (now : Int) (fetch : Except String (List α))
    (hinv : ∀ e, cache = some e → CacheEntryInv e)
    (hclock : ∀ e, cache = some e → e.lastFetched ≤ now) :
    ∀ e, (cacheRead cache now fetch).state = some e → CacheEntryInv e := by
  intro e he
  cases cache with
  | none =>
    cases fetch with
    | ok fresh =>
      simp only [cacheRead] at he
      cases he
      exact le_refl _
    | error msg =>
      simp only [cacheRead] at he
      exact Option.noConfusion he
  | some entry =>
    have hf := hclock entry rfl
    simp only [cacheRead] at he
    split at he
    · cases he
      exact hf
    · cases fetch with
      | ok fresh =>
        cases he
        exact le_refl _
      | error msg =>
        cases he
        exact hf

/-- Lemma: `takeWhile` of non-hyphen over a hyphen-free list followed by a hyphen keeps
exactly the hyphen-free part. -/
theorem takeWhile_ne_dash (l rest : List Char) (h : ∀ c ∈ l, c ≠ '-') :
    (l ++ '-' :: rest).takeWhile (fun c => c ≠ '-') = l := by
  induction l with
  | nil => simp [List.takeWhile]
  | cons a as ih =>
    have ha : (decide (a ≠ '-')) = true := by simp [h a (by simp)]
    simp only [List.cons_append, List.takeWhile, ha]
    exact congrArg (a :: ·) (ih fun c hc => h c (by simp [hc]))

/-- The capture of the regex `gold-([^-]+)-` on a synthetic gold payment ID
`gold-{discordId}-{suffix}` is exactly the embedded Discord ID, provided the
ID is nonempty and hyphen-free. -/
theorem goldIdCapture_synthetic (discordId rest : String)
    (hne : discordId ≠ "") (hnd : ∀ c ∈ discordId.data, c ≠ '-') :
    goldIdCapture ("gold-" ++ discordId ++ "-" ++ rest) = some discordId := by
  have hdata : ("gold-" ++ discordId ++ "-" ++ rest).data
      = 'g' :: 'o' :: 'l' :: 'd' :: '-' :: (discordId.data ++ '-' :: rest.data) := by
    simp [String.data_append]
  have hddata : discordId.data ≠ [] := by
    intro hempty
    exact hne (String.ext (hempty.trans rfl))
  unfold goldIdCapture
  rw [hdata]
  unfold goldIdCaptureAux
  unfold goldMatchAt
  rw [if_pos (by simp [List.isPrefixOf])]
  simp only [List.drop_succ_cons, List.drop_zero]
  rw [takeWhile_ne_dash discordId.data rest.data hnd]
  rw [if_pos ⟨hddata, by rw [List.drop_left]; simp⟩]

theorem jsOr_some_of_ne (v fb : String) (hv : v ≠ "") : jsOr (some v) fb = v := by
  simp [jsOr, hv]

theorem jsOr_eq_fallback (o : Option String) (fb : String)
    (h : o = none ∨ o = some "") : jsOr o fb = fb := by
  rcases h with h | h <;> simp [jsOr, h]

/-! ## Claim theorems -/

/-- Claim C2  — For every read of a cached payments (or gold payments)
collection: if a cache entry exists but the time since its `lastAccessed`
timestamp as it stood before the read is at least 30 minutes, the read does
not serve the cached data and instead refetches from the store.  (The
hypothesis `CacheEntryInv` — `lastFetched ≤ lastAccessed` — holds of every
entry the cache ever stores, per `cacheRead_preserves_inv`; under it, 30
minutes of inactivity forces the entry at least 30 minutes past
`lastFetched`, so the 15-minute freshness conjunct already fails and the
adapter is consulted; on a successful fetch the caller receives the fresh
data, not the cached entry.) -/
theorem claim_C2_inactive_entry_is_refetched {α : Type} (entry : CacheEntry α)
    (now : Int) (fetch : Except String (List α))
    (hinv : CacheEntryInv entry)
    (hidle : CACHE_INVALIDATION_TIMEOUT ≤ now - entry.lastAccessed) :
    (cacheRead (some entry) now fetch).fetched = true ∧
    ∀ fresh, fetch = .ok fresh →
      (cacheRead (some entry) now fetch).result = .ok fresh := by
  have hstale : ¬ (now - entry.lastFetched < CACHE_REFRESH_INTERVAL) := by
    have hle : entry.lastFetched ≤ entry.lastAccessed := hinv
    unfold CACHE_REFRESH_INTERVAL
    unfold CACHE_INVALIDATION_TIMEOUT at hidle
    omega
  constructor
  · simp only [cacheRead]
    rw [if_neg (by exact fun hc => hstale hc.1)]
    cases fetch <;> rfl
  · intro fresh hf
    subst hf
    simp only [cacheRead]
    rw [if_neg (by exact fun hc => hstale hc.1)]

/-- Witness for C2 at a concrete entry 30 minutes idle. -/
theorem claim_C2_witness :
    (cacheRead (some (⟨[0], 0, 0⟩ : CacheEntry Nat)) 1800000 (.ok [5])).fetched
      = true ∧
    (cacheRead (some (⟨[0], 0, 0⟩ : CacheEntry Nat)) 1800000 (.ok [5])).result
      = .ok [5] := by
  have h := claim_C2_inactive_entry_is_refetched (⟨[0], 0, 0⟩ : CacheEntry Nat)
    1800000 (.ok [5]) (by exact le_refl 0)
    (by norm_num [CACHE_INVALIDATION_TIMEOUT])
  exact ⟨h.1, h.2 [5] rfl⟩

/-- Claim C6  — For every cached-collection read where the freshness check
fails and the refetch from the store throws: if a previous cache entry
exists, the read returns that entry's data and no error reaches the caller
(the entry survives with only its `lastAccessed` bumped); the store error is
propagated only when no prior entry exists at all. -/
theorem claim_C6_stale_fallback {α : Type} (entry : CacheEntry α) (now : Int)
    (errMsg : String)
    (hstale : CACHE_REFRESH_INTERVAL ≤ now - entry.lastFetched) :
    (cacheRead (some entry) now (.error errMsg)).result = .ok entry.data ∧
    (cacheRead (some entry) now (.error errMsg)).state
      = some { entry with lastAccessed := now } ∧
    (cacheRead (none : Option (CacheEntry α)) now (.error errMsg)).result
      = .error errMsg := by
  have hnf : ¬ (now - entry.lastFetched < CACHE_REFRESH_INTERVAL) := by omega
  refine ⟨?_, ?_, rfl⟩ <;>
  · simp only [cacheRead]
    rw [if_neg (by exact fun hc => hnf hc.1)]

/-- Witness for C6 at a concrete stale entry. -/
theorem claim_C6_witness :
    (cacheRead (some (⟨[7], 0, 0⟩ : CacheEntry Nat)) 900000 (.error "down")).result
      = .ok [7] ∧
    (cacheRead (none : Option (CacheEntry Nat)) 900000 (.error "down")).result
      = .error "down" := by
  have h := claim_C6_stale_fallback (⟨[7], 0, 0⟩ : CacheEntry Nat) 900000 "down"
    (by norm_num [CACHE_REFRESH_INTERVAL])
  exact ⟨h.1, h.2.2⟩

/-- Claim C5  — In a batch status update each ID is processed by its own
closure, independently of the others (the `i`-th result is exactly the per-ID
function applied to the `i`-th ID, whatever happens to the rest), the
response carries one success/failure record per ID, and the response status
is 207 (multi-status) whenever some but not all IDs succeed — never a total
failure, never a silent success (all-success answers 200). -/
theorem claim_C5_batch_independent_and_partial
    (allPayments : List CachedPaymentId) (store : String → Except String Unit)
    (paymentIds : List String) :
    (batchUpdateStatus allPayments store paymentIds).1.length
      = paymentIds.length ∧
    (∀ i, (batchUpdateStatus allPayments store paymentIds).1.get? i
      = (paymentIds.get? i).map (processPaymentUpdate allPayments store)) ∧
    ((∃ r ∈ (batchUpdateStatus allPayments store paymentIds).1,
        r.success = false) →
      (batchUpdateStatus allPayments store paymentIds).2 = 207) ∧
    ((∀ r ∈ (batchUpdateStatus allPayments store paymentIds).1,
        r.success = true) →
      (batchUpdateStatus allPayments store paymentIds).2 = 200) := by
  refine ⟨by simp [batchUpdateStatus], fun i => by simp [batchUpdateStatus], ?_, ?_⟩
  · rintro ⟨r, hr, hfail⟩
    simp only [batchUpdateStatus]
    rw [if_pos]
    have : r ∈ (paymentIds.map (processPaymentUpdate allPayments store)).filter
        fun q => q.success = false := by
      rw [List.mem_filter]
      exact ⟨hr, by simp [hfail]⟩
    have hne := List.ne_nil_of_mem this
    cases hlist : (paymentIds.map (processPaymentUpdate allPayments store)).filter
        fun q => q.success = false with
    | nil => exact absurd hlist hne
    | cons a as => simp [hlist]
  · intro hall
    simp only [batchUpdateStatus]
    rw [if_neg]
    intro hpos
    rcases List.exists_mem_of_length_pos hpos with ⟨r, hr⟩
    rw [List.mem_filter] at hr
    have := hall r hr.1
    simp [this] at hr

/-- Witness for C5: one found ID whose write succeeds, one missing ID, one
found ID whose write throws — the response reports each individually and
answers 207. -/
theorem claim_C5_witness :
    (batchUpdateStatus [⟨"A", ""⟩, ⟨"C", ""⟩]
      (fun pid => if pid = "A" then .ok () else .error "boom")
      ["A", "B", "C"]).1
      = [⟨"A", true, none⟩, ⟨"B", false, some "Payment not found"⟩,
         ⟨"C", false, some "boom"⟩] ∧
    (batchUpdateStatus [⟨"A", ""⟩, ⟨"C", ""⟩]
      (fun pid => if pid = "A" then .ok () else .error "boom")
      ["A", "B", "C"]).2 = 207 := by
  have h := claim_C5_batch_independent_and_partial [⟨"A", ""⟩, ⟨"C", ""⟩]
    (fun pid => if pid = "A" then .ok () else .error "boom") ["A", "B", "C"]
  refine ⟨by decide, h.2.2.1 ⟨⟨"B", false, some "Payment not found"⟩, by decide, rfl⟩⟩

/-- Claim C4  — For a gold payment ID of the synthetic form
`gold-{discordId}-{index}-{timestamp}` (the Discord ID being nonempty and
hyphen-free, as the source's regex presumes), `updateGoldPaymentStatus`
writes the status cell of **every** data row whose Discord ID column equals
the embedded Discord ID — characterized exactly by `goldMatchingIndices` —
and throws when no row matches. -/
theorem claim_C4_bulk_update_by_discord_id (discordId idx ts status : String)
    (rows : List (List String))
    (hne : discordId ≠ "") (hnd : ∀ c ∈ discordId.data, c ≠ '-')
    (hrows : rows ≠ []) :
    (∀ i, i ∈ goldMatchingIndices rows (goldStartRow rows) discordId ↔
       goldStartRow rows ≤ i ∧ i < rows.length ∧
         (rows.getD i []).getD 1 "" = discordId) ∧
    (goldMatchingIndices rows (goldStartRow rows) discordId = [] →
      updateGoldPaymentStatus ("gold-" ++ discordId ++ "-" ++ idx ++ "-" ++ ts)
          status rows
        = ([], .error ("No gold payments found for Discord ID " ++ discordId))) ∧
    (goldMatchingIndices rows (goldStartRow rows) discordId ≠ [] →
      updateGoldPaymentStatus ("gold-" ++ discordId ++ "-" ++ idx ++ "-" ++ ts)
          status rows
        = ((goldMatchingIndices rows (goldStartRow rows) discordId).map
            fun i => ⟨"F", i + 1, [goldStatusValue status]⟩,
           .ok ("Updated status for "
             ++ toString (goldMatchingIndices rows (goldStartRow rows)
                  discordId).length
             ++ " gold payment(s) for Discord ID " ++ discordId))) := by
  have hcap : goldIdCapture ("gold-" ++ discordId ++ "-" ++ idx ++ "-" ++ ts)
      = some discordId := by
    have := goldIdCapture_synthetic discordId (idx ++ "-" ++ ts) hne hnd
    rw [← this]
    congr 1
    simp [String.append_assoc]
  refine ⟨?_, ?_, ?_⟩
  · intro i
    simp only [goldMatchingIndices, List.mem_filter, List.mem_range,
      decide_eq_true_eq]
    tauto
  · intro hmatch
    simp only [updateGoldPaymentStatus, hcap]
    rw [if_neg (by simp [hrows]), if_pos (by simp [hmatch])]
  · intro hmatch
    simp only [updateGoldPaymentStatus, hcap]
    rw [if_neg (by simp [hrows]), if_neg (by simp [hmatch])]

/-- Witness for C4 at a concrete sheet: two of three data rows share the
Discord ID `77`; both get written. -/
theorem claim_C4_witness :
    updateGoldPaymentStatus "gold-77-0-5" "Paid"
        [["Date", "Discord"], ["t1", "77"], ["t2", "88"], ["t3", "77"]]
      = ([⟨"F", 2, ["yes"]⟩, ⟨"F", 4, ["yes"]⟩],
         .ok "Updated status for 2 gold payment(s) for Discord ID 77") := by
  have h := claim_C4_bulk_update_by_discord_id "77" "0" "5" "Paid"
    [["Date", "Discord"], ["t1", "77"], ["t2", "88"], ["t3", "77"]]
    (by decide) (by decide) (by decide)
  have heq := h.2.2 (by decide)
  rw [show ("gold-" ++ "77" ++ "-" ++ "0" ++ "-" ++ "5") = "gold-77-0-5" from rfl]
    at heq
  rw [heq]
  rfl

/-- Claim C10  — Any gold payment ID that the regex `gold-([^-]+)-` does not
match — in particular an ID taken verbatim from the store's Payment ID
column (cell 7), which is exactly what `getGoldPayments` uses as `id`
whenever that cell is non-blank — makes `updateGoldPaymentStatus` throw
`Invalid gold payment ID format` without issuing a single store write. -/
theorem claim_C10_nonsynthetic_id_rejected (paymentId status : String)
    (rows : List (List String))
    (hcap : goldIdCapture paymentId = none) :
    updateGoldPaymentStatus paymentId status rows
      = ([], .error ("Invalid gold payment ID format: " ++ paymentId)) ∧
    (∀ nowIso nowMs idx row, (row.getD 7 "" : String) = paymentId →
      paymentId ≠ "" →
      (goldPaymentOfRow nowIso nowMs idx row).id = paymentId) := by
  constructor
  · simp [updateGoldPaymentStatus, hcap]
  · intro nowIso nowMs idx row h7 hno
    simp only [goldPaymentOfRow, h7]
    rw [if_pos hno]

/-- Witness for C10: the Payment-ID-column identifier `PAY123` is rejected
unwritten. -/
theorem claim_C10_witness :
    updateGoldPaymentStatus "PAY123" "Paid" [["t1", "77"]]
      = ([], .error "Invalid gold payment ID format: PAY123") ∧
    (goldPaymentOfRow "NOW" 0 0
        ["d", "77", "nm", "10", "nt", "cat", "adm", "PAY123", "", ""]).id
      = "PAY123" := by
  have h := claim_C10_nonsynthetic_id_rejected "PAY123" "Paid" [["t1", "77"]]
    (by decide)
  exact ⟨h.1, h.2 "NOW" 0 0 ["d", "77", "nm", "10", "nt", "cat", "adm", "PAY123", "", ""]
    (by decide) (by decide)⟩

/-- Claim C1, counterexample  — The claim says a status-only transition writes
the status column **and** the actor-label column to the new values.  At a
concrete stored row, calling `updatePayment` with just
`{status: "Paid", whoPaidCancelled: "alice"}` takes the fast path and issues
exactly one write — the `O` (status) column; no write carries the supplied
actor label `alice`, so the actor-label column (P) keeps its stored value
`old-actor`, contradicting the claim. -/
theorem claim_C1_counterexample :
    (updatePayment
        [["p1", "5", "100", "5000", "al", "T0", "d1", "c", "i", "n", "ph",
          "1-2 days", "g", "", "Pending", "old-actor", "DUE"]]
        "p1" { status := some "Paid", whoPaidCancelled := some "alice" }).1
      = [⟨"O", 1, ["Paid"]⟩] ∧
    (⟨"P", 1, ["alice"]⟩ : SheetWrite) ∉
      (updatePayment
        [["p1", "5", "100", "5000", "al", "T0", "d1", "c", "i", "n", "ph",
          "1-2 days", "g", "", "Pending", "old-actor", "DUE"]]
        "p1" { status := some "Paid", whoPaidCancelled := some "alice" }).1 := by
  decide

/-- Claim C1, amended  — A status-only transition (`updatePayment` called with
just a non-empty status and an actor label) issues exactly one store write:
the status column `O` of the matched row set to the new status.  The
supplied actor label is discarded — the actor-label column and every other
column of the row keep their stored cell values (nothing else is written). -/
theorem claim_C1_amended_status_only_write (rows : List (List String))
    (paymentId s a : String) (i : Nat)
    (hfind : findPaymentRow rows paymentId = some i) (hs : s ≠ "") :
    updatePayment rows paymentId
        { status := some s, whoPaidCancelled := some a }
      = ([⟨"O", i + 1, [s]⟩], .ok ()) := by
  simp only [updatePayment, hfind]
  rw [if_pos]
  · rfl
  · simp [PaymentPatch.statusOnly, PaymentPatch.presentCount, hs]

/-- Witness for the amended C1 at a concrete row. -/
theorem claim_C1_witness :
    updatePayment
        [["p1", "5", "100", "5000", "al", "T0", "d1", "c", "i", "n", "ph",
          "1-2 days", "g", "", "Pending", "old-actor", "DUE"]]
        "p1" { status := some "Cancelled", whoPaidCancelled := some "bob" }
      = ([⟨"O", 1, ["Cancelled"]⟩], .ok ()) :=
  claim_C1_amended_status_only_write
    [["p1", "5", "100", "5000", "al", "T0", "d1", "c", "i", "n", "ph",
      "1-2 days", "g", "", "Pending", "old-actor", "DUE"]]
    "p1" "Cancelled" "bob" 0 (by decide) (by decide)

/-- Claim C8, counterexample  — The claim says every field present and
non-undefined in the partial overrides the stored cell.  At a concrete
stored row, the full-update path given the partial
`{user: "", note: "x"}` — `user` present with the (non-undefined) empty
string — writes a merged row whose user cell still holds the stored `al`,
not the supplied `""`: the `||`-based merge drops present-but-falsy values. -/
theorem claim_C8_counterexample :
    (updatePayment
        [["p1", "5", "100", "5000", "al", "T0", "d1", "c", "i", "n", "ph",
          "1-2 days", "g", "", "Pending", "x", "DUE"]]
        "p1" { user := some "", note := some "x" }).1
      = [⟨"A:Q", 1,
          ["p1", "5", "100", "5000", "al", "T0", "d1", "c", "i", "n", "ph",
           "1-2 days", "g", "x", "Pending", "x", "DUE"]⟩] ∧
    ("al" : String) ≠ "" := by
  decide

/-- Claim C8, amended  — In `updatePayment`'s full-update path: `amount`,
`price`, `totalRial` and `note` override the stored cell whenever the key is
present (`!== undefined`), even with an empty value; every other field
overrides only when present **and non-empty** — a present empty string falls
back to the stored cell (JS `||` merge); absent fields keep the stored cell
value, except `status`, which additionally defaults to `Pending` when the
stored cell is also blank; and the creation-timestamp cell and due-date cell
always keep their stored values regardless of the partial. -/
theorem claim_C8_amended_merge_rule (paymentId : String) (cur : List String)
    (p : PaymentPatch) :
    ((mergedRow paymentId cur p).getD 0 "" = paymentId) ∧
    ((mergedRow paymentId cur p).getD 5 "" = cur.getD 5 "") ∧
    ((mergedRow paymentId cur p).getD 16 "" = cur.getD 16 "") ∧
    (∀ v, p.amount = some v → (mergedRow paymentId cur p).getD 1 "" = v) ∧
    (p.amount = none → (mergedRow paymentId cur p).getD 1 "" = cur.getD 1 "") ∧
    (∀ v, p.price = some v → (mergedRow paymentId cur p).getD 2 "" = v) ∧
    (p.price = none → (mergedRow paymentId cur p).getD 2 "" = cur.getD 2 "") ∧
    (∀ v, p.totalRial = some v → (mergedRow paymentId cur p).getD 3 "" = v) ∧
    (p.totalRial = none → (mergedRow paymentId cur p).getD 3 "" = cur.getD 3 "") ∧
    (∀ v, p.note = some v → (mergedRow paymentId cur p).getD 13 "" = v) ∧
    (p.note = none → (mergedRow paymentId cur p).getD 13 "" = cur.getD 13 "") ∧
    (∀ v, p.user = some v → v ≠ "" →
      (mergedRow paymentId cur p).getD 4 "" = v) ∧
    (p.user = none ∨ p.user = some "" →
      (mergedRow paymentId cur p).getD 4 "" = cur.getD 4 "") ∧
    (∀ v, p.discordId = some v → v ≠ "" →
      (mergedRow paymentId cur p).getD 6 "" = v) ∧
    (p.discordId = none ∨ p.discordId = some "" →
      (mergedRow paymentId cur p).getD 6 "" = cur.getD 6 "") ∧
    (∀ v, p.cardNumber = some v → v ≠ "" →
      (mergedRow paymentId cur p).getD 7 "" = v) ∧
    (p.cardNumber = none ∨ p.cardNumber = some "" →
      (mergedRow paymentId cur p).getD 7 "" = cur.getD 7 "") ∧
    (∀ v, p.iban = some v → v ≠ "" →
      (mergedRow paymentId cur p).getD 8 "" = v) ∧
    (p.iban = none ∨ p.iban = some "" →
      (mergedRow paymentId cur p).getD 8 "" = cur.getD 8 "") ∧
    (∀ v, p.nameOnCard = some v → v ≠ "" →
      (mergedRow paymentId cur p).getD 9 "" = v) ∧
    (p.nameOnCard = none ∨ p.nameOnCard = some "" →
      (mergedRow paymentId cur p).getD 9 "" = cur.getD 9 "") ∧
    (∀ v, p.phoneNumber = some v → v ≠ "" →
      (mergedRow paymentId cur p).getD 10 "" = v) ∧
    (p.phoneNumber = none ∨ p.phoneNumber = some "" →
      (mergedRow paymentId cur p).getD 10 "" = cur.getD 10 "") ∧
    (∀ v, p.paymentDuration = some v → v ≠ "" →
      (mergedRow paymentId cur p).getD 11 "" = v) ∧
    (p.paymentDuration = none ∨ p.paymentDuration = some "" →
      (mergedRow paymentId cur p).getD 11 "" = cur.getD 11 "") ∧
    (∀ v, p.game = some v → v ≠ "" →
      (mergedRow paymentId cur p).getD 12 "" = v) ∧
    (p.game = none ∨ p.game = some "" →
      (mergedRow paymentId cur p).getD 12 "" = cur.getD 12 "") ∧
    (∀ v, p.status = some v → v ≠ "" →
      (mergedRow paymentId cur p).getD 14 "" = v) ∧
    (p.status = none ∨ p.status = some "" → cur.getD 14 "" ≠ "" →
      (mergedRow paymentId cur p).getD 14 "" = cur.getD 14 "") ∧
    (p.status = none ∨ p.status = some "" → cur.getD 14 "" = "" →
      (mergedRow paymentId cur p).getD 14 "" = "Pending") ∧
    (∀ v, p.whoPaidCancelled = some v → v ≠ "" →
      (mergedRow paymentId cur p).getD 15 "" = v) ∧
    (p.whoPaidCancelled = none ∨ p.whoPaidCancelled = some "" →
      (mergedRow paymentId cur p).getD 15 "" = cur.getD 15 "") := by
  refine ⟨rfl, rfl, rfl, ?_, ?_, ?_, ?_, ?_, ?_, ?_, ?_, ?_, ?_, ?_, ?_, ?_,
    ?_, ?_, ?_, ?_, ?_, ?_, ?_, ?_, ?_, ?_, ?_, ?_, ?_, ?_, ?_, ?_⟩
  · intro v hp
    show p.amount.getD (cur.getD 1 "") = v
    rw [hp]
    rfl
  · intro hp
    show p.amount.getD (cur.getD 1 "") = cur.getD 1 ""
    rw [hp]
    rfl
  · intro v hp
    show p.price.getD (cur.getD 2 "") = v
    rw [hp]
    rfl
  · intro hp
    show p.price.getD (cur.getD 2 "") = cur.getD 2 ""
    rw [hp]
    rfl
  · intro v hp
    show p.totalRial.getD (cur.getD 3 "") = v
    rw [hp]
    rfl
  · intro hp
    show p.totalRial.getD (cur.getD 3 "") = cur.getD 3 ""
    rw [hp]
    rfl
  · intro v hp
    show p.note.getD (cur.getD 13 "") = v
    rw [hp]
    rfl
  · intro hp
    show p.note.getD (cur.getD 13 "") = cur.getD 13 ""
    rw [hp]
    rfl
  · intro v hp hv
    show jsOr p.user (cur.getD 4 "") = v
    rw [hp, jsOr_some_of_ne v _ hv]
  · intro hp
    show jsOr p.user (cur.getD 4 "") = cur.getD 4 ""
    exact jsOr_eq_fallback _ _ hp
  · intro v hp hv
    show jsOr p.discordId (cur.getD 6 "") = v
    rw [hp, jsOr_some_of_ne v _ hv]
  · intro hp
    show jsOr p.discordId (cur.getD 6 "") = cur.getD 6 ""
    exact jsOr_eq_fallback _ _ hp
  · intro v hp hv
    show jsOr p.cardNumber (cur.getD 7 "") = v
    rw [hp, jsOr_some_of_ne v _ hv]
  · intro hp
    show jsOr p.cardNumber (cur.getD 7 "") = cur.getD 7 ""
    exact jsOr_eq_fallback _ _ hp
  · intro v hp hv
    show jsOr p.iban (cur.getD 8 "") = v
    rw [hp, jsOr_some_of_ne v _ hv]
  · intro hp
    show jsOr p.iban (cur.getD 8 "") = cur.getD 8 ""
    exact jsOr_eq_fallback _ _ hp
  · intro v hp hv
    show jsOr p.nameOnCard (cur.getD 9 "") = v
    rw [hp, jsOr_some_of_ne v _ hv]
  · intro hp
    show jsOr p.nameOnCard (cur.getD 9 "") = cur.getD 9 ""
    exact jsOr_eq_fallback _ _ hp
  · intro v hp hv
    show jsOr p.phoneNumber (cur.getD 10 "") = v
    rw [hp, jsOr_some_of_ne v _ hv]
  · intro hp
    show jsOr p.phoneNumber (cur.getD 10 "") = cur.getD 10 ""
    exact jsOr_eq_fallback _ _ hp
  · intro v hp hv
    show jsOr p.paymentDuration (cur.getD 11 "") = v
    rw [hp, jsOr_some_of_ne v _ hv]
  · intro hp
    show jsOr p.paymentDuration (cur.getD 11 "") = cur.getD 11 ""
    exact jsOr_eq_fallback _ _ hp
  · intro v hp hv
    show jsOr p.game (cur.getD 12 "") = v
    rw [hp, jsOr_some_of_ne v _ hv]
  · intro hp
    show jsOr p.game (cur.getD 12 "") = cur.getD 12 ""
    exact jsOr_eq_fallback _ _ hp
  · intro v hp hv
    show jsOr p.status (jsOr (some (cur.getD 14 "")) "Pending") = v
    rw [hp, jsOr_some_of_ne v _ hv]
  · intro hp hc
    show jsOr p.status (jsOr (some (cur.getD 14 "")) "Pending") = cur.getD 14 ""
    rw [jsOr_eq_fallback _ _ hp, jsOr_some_of_ne _ _ hc]
  · intro hp hc
    show jsOr p.status (jsOr (some (cur.getD 14 "")) "Pending") = "Pending"
    rw [jsOr_eq_fallback _ _ hp, hc]
    rfl
  · intro v hp hv
    show jsOr p.whoPaidCancelled (jsOr (some (cur.getD 15 "")) "") = v
    rw [hp, jsOr_some_of_ne v _ hv]
  · intro hp
    show jsOr p.whoPaidCancelled (jsOr (some (cur.getD 15 "")) "") = cur.getD 15 ""
    rw [jsOr_eq_fallback _ _ hp]
    by_cases hc : cur.getD 15 "" = ""
    · rw [hc]
      rfl
    · rw [jsOr_some_of_ne _ _ hc]

/-- Witness for the amended C8: non-empty present fields override, the
timestamp keeps its stored value, a present empty `iban` falls back. -/
theorem claim_C8_witness :
    (mergedRow "p1"
        ["p1", "5", "100", "5000", "al", "T0", "d1", "c", "i", "n", "ph",
         "1-2 days", "g", "", "Pending", "x", "DUE"]
        { user := some "bob", amount := some "9", iban := some "" }).getD 5 ""
      = "T0" ∧
    (mergedRow "p1"
        ["p1", "5", "100", "5000", "al", "T0", "d1", "c", "i", "n", "ph",
         "1-2 days", "g", "", "Pending", "x", "DUE"]
        { user := some "bob", amount := some "9", iban := some "" }).getD 4 ""
      = "bob" ∧
    (mergedRow "p1"
        ["p1", "5", "100", "5000", "al", "T0", "d1", "c", "i", "n", "ph",
         "1-2 days", "g", "", "Pending", "x", "DUE"]
        { user := some "bob", amount := some "9", iban := some "" }).getD 1 ""
      = "9" ∧
    (mergedRow "p1"
        ["p1", "5", "100", "5000", "al", "T0", "d1", "c", "i", "n", "ph",
         "1-2 days", "g", "", "Pending", "x", "DUE"]
        { user := some "bob", amount := some "9", iban := some "" }).getD 8 ""
      = "i" := by
  obtain ⟨-, hts, -, ham, -, -, -, -, -, -, -, huser, -, -, -, -, -, hib, hibf,
      -, -, -, -, -, -, -, -, -, -, -, -, -⟩ :=
    claim_C8_amended_merge_rule "p1"
      ["p1", "5", "100", "5000", "al", "T0", "d1", "c", "i", "n", "ph",
       "1-2 days", "g", "", "Pending", "x", "DUE"]
      { user := some "bob", amount := some "9", iban := some "" }
  exact ⟨hts, huser "bob" rfl (by decide), ham "9" rfl, hibf (Or.inr rfl)⟩

/-- Claim C7, counterexample  — The claim says every possible string in the
status cell is canonicalized to one of Pending/Paid/Cancelled before the
record leaves the adapter.  A gold-payment row whose status cell holds the
unrecognized value `maybe` produces a record whose status is the verbatim
`maybe`, none of the three enum values. -/
theorem claim_C7_counterexample :
    (goldPaymentOfRow "NOW" 0 0
        ["2024-01-01", "77", "nm", "10", "nt", "cat", "adm", "PID", "maybe",
         "w"]).status = "maybe" ∧
    ("maybe" : String) ≠ "Pending" ∧ ("maybe" : String) ≠ "Paid" ∧
    ("maybe" : String) ≠ "Cancelled" := by
  decide

/-- Claim C7, amended  — The gold-payment reader canonicalizes the *recognized*
status spellings — after trimming and lower-casing, `yes`/`true`/`completed`
(and also `paid`) map to Paid, `cancelled`/`cancel` to Cancelled, and a
blank or `pending` cell to Pending — but an unrecognized non-blank value
passes through unchanged, and the plain payment reader does no
canonicalization at all beyond defaulting a blank cell to Pending. -/
theorem claim_C7_amended_status_normalization (cell : String) :
    (mapGoldStatus "" = "Pending") ∧
    (cell ≠ "" →
      (jsToLower (jsTrim cell) = "yes" ∨ jsToLower (jsTrim cell) = "true" ∨
        jsToLower (jsTrim cell) = "completed" ∨
        jsToLower (jsTrim cell) = "paid") →
      mapGoldStatus cell = "Paid") ∧
    (cell ≠ "" →
      (jsToLower (jsTrim cell) = "cancelled" ∨
        jsToLower (jsTrim cell) = "cancel") →
      mapGoldStatus cell = "Cancelled") ∧
    (cell ≠ "" →
      (jsTrim cell = "" ∨ jsToLower (jsTrim cell) = "pending") →
      mapGoldStatus cell = "Pending") ∧
    (∀ nowIso nowMs idx row, (goldPaymentOfRow nowIso nowMs idx row).status
      = mapGoldStatus (row.getD 8 "")) ∧
    (∀ row, (paymentOfRow row).status
      = if row.getD 14 "" = "" then "Pending" else row.getD 14 "") := by
  refine ⟨by decide, ?_, ?_, ?_, fun _ _ _ _ => rfl, fun _ => rfl⟩
  · intro hc ht
    rcases ht with h | h | h | h <;> simp [mapGoldStatus, hc, h]
  · intro hc ht
    rcases ht with h | h <;> simp [mapGoldStatus, hc, h]
  · intro hc ht
    rcases ht with h | h
    · simp [mapGoldStatus, hc, h, jsToLower]
    · simp [mapGoldStatus, hc, h]

/-- Witness for the amended C7: a padded upper-case `yes` cell is
canonicalized to Paid. -/
theorem claim_C7_witness : mapGoldStatus " YES " = "Paid" :=
  (claim_C7_amended_status_normalization " YES ").2.1 (by decide)
    (Or.inl (by decide))

/-- Claim C3, counterexample  — The claim says the due-date derivation maps
the enumerated duration `1-2 days` to creation + 2 days.  `calculateDueDate`
(`googleSheetsHelper.ts`), the derivation applied to stored payments when
they are read back, takes the *first* embedded integer of the string, so
`1-2 days` yields an offset of 1 day, not 2. -/
theorem claim_C3_counterexample :
    calculateDueDateDelta (some (.str "1-2 days")) = .days 1 ∧
    DueDelta.days 1 ≠ .days 2 := by
  constructor
  · decide
  · decide

/-- Claim C3, amended  — `calculateExpectedPaymentDate` (`payment-utils.ts`)
maps the enumerated durations to exactly the fixed day offsets
{Instant: 0, 1 day: 1, 1-2 days: 2, 2-3 days: 3, 3-5 days: 5, 5-10 days: 10}
from its reference instant; `calculateDueDate` (`googleSheetsHelper.ts`),
the derivation used for stored payments on read, instead combines the unit
keyword with the first embedded integer, so `1-2 days` yields +1 day and
`Instant` (no unit keyword) yields +1 month. -/
theorem claim_C3_amended_enumerated_durations (now : Int) :
    calculateExpectedPaymentDate now "Instant" = now ∧
    calculateExpectedPaymentDate now "1 day" = now + 1 * dayMs ∧
    calculateExpectedPaymentDate now "1-2 days" = now + 2 * dayMs ∧
    calculateExpectedPaymentDate now "2-3 days" = now + 3 * dayMs ∧
    calculateExpectedPaymentDate now "3-5 days" = now + 5 * dayMs ∧
    calculateExpectedPaymentDate now "5-10 days" = now + 10 * dayMs ∧
    calculateDueDateDelta (some (.str "Instant")) = .months 1 ∧
    calculateDueDateDelta (some (.str "1 day")) = .days 1 ∧
    calculateDueDateDelta (some (.str "1-2 days")) = .days 1 ∧
    calculateDueDateDelta (some (.str "2-3 days")) = .days 2 ∧
    calculateDueDateDelta (some (.str "3-5 days")) = .days 3 ∧
    calculateDueDateDelta (some (.str "5-10 days")) = .days 5 := by
  refine ⟨rfl, ?_, ?_, ?_, ?_, ?_, by decide, by decide, by decide, by decide,
    by decide, by decide⟩ <;>
  · simp [calculateExpectedPaymentDate]

/-- Claim C9, counterexample  — The claim says a free-text duration containing
a unit keyword but no integer yields a quantity of 1 of that unit, its own
example being a string containing `day` with no digits.  The string `day`
itself contains the keyword and no digits, yet `calculateDueDate` defaults
the day branch to `parseInt('7')`, yielding +7 days, not +1 day. -/
theorem claim_C9_counterexample :
    calculateDueDateDelta (some (.str "day")) = .days 7 ∧
    DueDelta.days 7 ≠ .days 1 := by
  constructor
  · decide
  · decide

/-- Claim C9, amended  — For free text with a unit keyword but no embedded
integer, the day branch defaults to **7** days while the week, month and
year branches default to 1 of their unit (the branches are tried in the
order day, week, month, year); free text matching no unit keyword yields
+1 month. -/
theorem claim_C9_amended_keyword_defaults (s : String) (hne : s ≠ "")
    (hno : firstInt (jsToLower s) = none) :
    ((containsSub (jsToLower s) "day" ∨ containsSub (jsToLower s) "روز") →
      calculateDueDateDelta (some (.str s)) = .days 7) ∧
    (¬(containsSub (jsToLower s) "day" ∨ containsSub (jsToLower s) "روز") →
      (containsSub (jsToLower s) "week" ∨ containsSub (jsToLower s) "هفته") →
      calculateDueDateDelta (some (.str s)) = .weeks 1) ∧
    (¬(containsSub (jsToLower s) "day" ∨ containsSub (jsToLower s) "روز") →
      ¬(containsSub (jsToLower s) "week" ∨ containsSub (jsToLower s) "هفته") →
      (containsSub (jsToLower s) "month" ∨ containsSub (jsToLower s) "ماه") →
      calculateDueDateDelta (some (.str s)) = .months 1) ∧
    (¬(containsSub (jsToLower s) "day" ∨ containsSub (jsToLower s) "روز") →
      ¬(containsSub (jsToLower s) "week" ∨ containsSub (jsToLower s) "هفته") →
      ¬(containsSub (jsToLower s) "month" ∨ containsSub (jsToLower s) "ماه") →
      (containsSub (jsToLower s) "year" ∨ containsSub (jsToLower s) "سال") →
      calculateDueDateDelta (some (.str s)) = .years 1) ∧
    (¬(containsSub (jsToLower s) "day" ∨ containsSub (jsToLower s) "روز") →
      ¬(containsSub (jsToLower s) "week" ∨ containsSub (jsToLower s) "هفته") →
      ¬(containsSub (jsToLower s) "month" ∨ containsSub (jsToLower s) "ماه") →
      ¬(containsSub (jsToLower s) "year" ∨ containsSub (jsToLower s) "سال") →
      calculateDueDateDelta (some (.str s)) = .months 1) := by
  refine ⟨?_, ?_, ?_, ?_, ?_⟩ <;>
    intros <;>
    simp_all [calculateDueDateDelta, hne, hno]

/-- Witness for the amended C9: the bare string `day` (keyword, no digits)
maps to a 7-day offset. -/
theorem claim_C9_witness : calculateDueDateDelta (some (.str "day")) = .days 7 :=
  (claim_C9_amended_keyword_defaults "day" (by decide) (by decide)).1
    (Or.inl (by decide))

end NavidDashboard
